import Mathlib

set_option linter.unusedSectionVars false

/-!
Shallow embedding of the visualization engine of the
Deadlock-Detection-Simulation browser client.

The repository carries two variants of the `DeadlockVisualizer` class:
* `Light` — `src/web/static/js/visualization.js` (light palette);
* `Dark`  — the dark-mode update of the same file (unnamed source file).

JavaScript numbers are modelled by an arbitrary linear ordered field `F`
(instantiated with `ℚ` for concrete evaluation and with `ℝ` for the
trigonometric facts).  The browser's `Math` object is modelled by a record
of its functions, so every definition stays computable; theorems that need
the actual trigonometric functions fix the record's fields to `Real.cos`,
`Real.sin`, `Real.pi`.

A 2D canvas context is modelled as a state machine: the style fields a
context carries, the current path, and the list of resolved drawing
operations emitted so far (each emitted operation records the style values
it was issued under).  A method call on the JavaScript context becomes a
function `Ctx F → Ctx F`.
-/

/-! ### Lookup lemmas for the positions object -/

/-! ### Emission lemmas: each drawing routine appends a fixed operation
list to the context's output -/

variable {F : Type} [LinearOrderedField F]

/-- Model of the JavaScript `Math` object: `Math.PI`, `Math.cos`,
`Math.sin`, `Math.atan2` (the latter takes `y` before `x`). -/
structure JsMath (F : Type) where
  pi : F
  cos : F → F
  sin : F → F
  atan2 : F → F → F

/-- A segment of a canvas path, as produced by `moveTo` / `lineTo` /
`arc` / `closePath`. -/
inductive PathSeg (F : Type) where
  | move (x y : F)
  | line (x y : F)
  | arc (x y radius startAngle endAngle : F)
  | close
  deriving DecidableEq

/-- A resolved drawing operation: what a `stroke` / `fill` / `fillRect` /
`clearRect` / `fillText` call paints, together with the style values in
force when it was issued. -/
inductive CanvasOp (F : Type) where
  | clearRect (x y w h : F)
  | fillRect (x y w h : F) (fillStyle : String)
  | strokePath (path : List (PathSeg F)) (strokeStyle : String) (lineWidth : F)
  | fillPath (path : List (PathSeg F)) (fillStyle : String)
  | fillText (text : String) (x y : F) (fillStyle font textAlign textBaseline : String)
  deriving DecidableEq

/-- State of a 2D canvas rendering context: the mutable style attributes,
the current path, and the operations already painted. -/
structure Ctx (F : Type) where
  fillStyle : String
  strokeStyle : String
  lineWidth : F
  font : String
  textAlign : String
  textBaseline : String
  shadowBlur : F
  shadowColor : String
  path : List (PathSeg F)
  ops : List (CanvasOp F)
  deriving DecidableEq

/-- A freshly created 2D context (the defaults of the HTML canvas API). -/
def Ctx.initial : Ctx F :=
  { fillStyle := "#000000", strokeStyle := "#000000", lineWidth := 1,
    font := "10px sans-serif", textAlign := "start", textBaseline := "alphabetic",
    shadowBlur := 0, shadowColor := "rgba(0, 0, 0, 0)", path := [], ops := [] }

def Ctx.beginPath (c : Ctx F) : Ctx F := { c with path := [] }

def Ctx.moveTo (c : Ctx F) (x y : F) : Ctx F :=
  { c with path := c.path ++ [PathSeg.move x y] }

def Ctx.lineTo (c : Ctx F) (x y : F) : Ctx F :=
  { c with path := c.path ++ [PathSeg.line x y] }

def Ctx.arc (c : Ctx F) (x y radius startAngle endAngle : F) : Ctx F :=
  { c with path := c.path ++ [PathSeg.arc x y radius startAngle endAngle] }

def Ctx.closePath (c : Ctx F) : Ctx F := { c with path := c.path ++ [PathSeg.close] }

def Ctx.stroke (c : Ctx F) : Ctx F :=
  { c with ops := c.ops ++ [CanvasOp.strokePath c.path c.strokeStyle c.lineWidth] }

def Ctx.fill (c : Ctx F) : Ctx F :=
  { c with ops := c.ops ++ [CanvasOp.fillPath c.path c.fillStyle] }

def Ctx.clearRect (c : Ctx F) (x y w h : F) : Ctx F :=
  { c with ops := c.ops ++ [CanvasOp.clearRect x y w h] }

def Ctx.fillRect (c : Ctx F) (x y w h : F) : Ctx F :=
  { c with ops := c.ops ++ [CanvasOp.fillRect x y w h c.fillStyle] }

def Ctx.fillTextOp (c : Ctx F) (text : String) (x y : F) : Ctx F :=
  { c with ops := c.ops ++
      [CanvasOp.fillText text x y c.fillStyle c.font c.textAlign c.textBaseline] }

def Ctx.setFillStyle (c : Ctx F) (s : String) : Ctx F := { c with fillStyle := s }

def Ctx.setStrokeStyle (c : Ctx F) (s : String) : Ctx F := { c with strokeStyle := s }

def Ctx.setLineWidth (c : Ctx F) (w : F) : Ctx F := { c with lineWidth := w }

def Ctx.setFont (c : Ctx F) (s : String) : Ctx F := { c with font := s }

def Ctx.setTextAlign (c : Ctx F) (s : String) : Ctx F := { c with textAlign := s }

def Ctx.setTextBaseline (c : Ctx F) (s : String) : Ctx F := { c with textBaseline := s }

def Ctx.setShadowBlur (c : Ctx F) (b : F) : Ctx F := { c with shadowBlur := b }

def Ctx.setShadowColor (c : Ctx F) (s : String) : Ctx F := { c with shadowColor := s }

/-- A 2D point, as the `{x, y}` position objects of the source. -/
structure Point (F : Type) where
  x : F
  y : F
  deriving DecidableEq

/-- One entry of the `edges` array of a `GraphSnapshot`
(`from` and `to` are Lean keywords, hence `fromId`/`toId`). -/
structure WFGEdge where
  fromId : String
  toId : String
  deriving DecidableEq

/-- The `GraphSnapshot` payload: `{nodes, edges, deadlockedNodes?}`.
The optional `deadlockedNodes` field is absent (`none`) or a list. -/
structure WFGData where
  nodes : List String
  edges : List WFGEdge
  deadlockedNodes : Option (List String)
  deriving DecidableEq

/-- The `states` argument of `drawFSADiagram`: either an array of state
ids, or an object whose keys (in insertion order, as `Object.keys`
returns them) are the state ids. -/
inductive StatesArg where
  | arr (states : List String)
  | obj (keys : List String)
  deriving DecidableEq

/-- `Array.isArray(states) ? states : Object.keys(states)`. -/
def StatesArg.toList : StatesArg → List String
  | StatesArg.arr states => states
  | StatesArg.obj keys => keys

/-- The error a JavaScript member access on `null`/`undefined` raises. -/
inductive JsError where
  | typeError
  deriving DecidableEq

/-- The circular-layout radius both variants compute:
`Math.min(centerX, centerY) - margin` (margin `50` in the light variant,
`60` in the dark one).  No clamping is applied by the source. -/
def layoutRadius (centerX centerY margin : F) : F :=
  min centerX centerY - margin

/-- Position of index `index` of `n` on the layout circle:
angle `2π·index/n`, point `(centerX + radius·cos, centerY + radius·sin)`. -/
def circlePoint (m : JsMath F) (centerX centerY radius : F) (n index : ℕ) :
    Point F :=
  let angle := (2 * m.pi * (index : F)) / (n : F)
  { x := centerX + radius * m.cos angle, y := centerY + radius * m.sin angle }

/-- The `nodePositions` object built by the `nodes.forEach` loop of
`drawWaitForGraph`: successive assignments `nodePositions[node] = {x, y}`,
a later assignment overwriting an earlier one; lookup of an unassigned key
yields `undefined` (`none`). -/
def nodePositions (m : JsMath F) (centerX centerY radius : F)
    (nodes : List String) : String → Option (Point F) :=
  nodes.enum.foldl
    (fun acc p => fun key =>
      if key = p.2 then some (circlePoint m centerX centerY radius nodes.length p.1)
      else acc key)
    (fun _ => none)

/-- One `nodePositions[node] = {x, y}` assignment step, the point being a
function of the node's index. -/
def assignPos (pt : ℕ → Point F) :
    (String → Option (Point F)) → ℕ × String → (String → Option (Point F)) :=
  fun acc p => fun key => if key = p.2 then some (pt p.1) else acc key

namespace Light

/-- The canvas element of the light variant; `drawWaitForGraph` reads its
`width`/`height` attributes. -/
structure Canvas (F : Type) where
  width : F
  height : F
  deriving DecidableEq

/-- The light `DeadlockVisualizer` object: `this.canvas`, `this.ctx`
(`none` models `null`/`undefined`), and the `this.nodes`/`this.edges`
fields initialised by the constructor (written once, never read;
`none` models them left `undefined` by the early constructor return). -/
structure Visualizer (F : Type) where
  canvas : Option (Canvas F)
  ctx : Option (Ctx F)
  nodes : Option (List String)
  edges : Option (List WFGEdge)
  deriving DecidableEq

/-- `new DeadlockVisualizer(canvasId)` of the light variant:
`document.getElementById` either fails (`none`: warn and return early,
leaving every other field undefined) or yields a canvas, in which case a
fresh 2D context is obtained and `this.nodes`/`this.edges` are set. -/
def mkVisualizer (found : Option (Canvas F)) : Visualizer F :=
  match found with
  | none => { canvas := none, ctx := none, nodes := none, edges := none }
  | some canvas =>
      { canvas := some canvas, ctx := some Ctx.initial,
        nodes := some [], edges := some [] }

/-- `clear()` of the light variant: `clearRect` over the whole canvas,
then paint the `#f8f9fa` background. -/
def clear (c : Ctx F) (canvasWidth canvasHeight : F) : Ctx F :=
  let c := c.clearRect 0 0 canvasWidth canvasHeight
  let c := c.setFillStyle "#f8f9fa"
  c.fillRect 0 0 canvasWidth canvasHeight

/-- `drawArrow(x1, y1, x2, y2)` of the light variant.  The `let`
shadowing of `x1 … y2` mirrors the in-place reassignment of the source. -/
def drawArrow (m : JsMath F) (c : Ctx F) (x1 y1 x2 y2 : F) : Ctx F :=
  let headLength : F := 15
  let angle := m.atan2 (y2 - y1) (x2 - x1)
  let nodeRadius : F := 25
  let x2 := x2 - nodeRadius * m.cos angle
  let y2 := y2 - nodeRadius * m.sin angle
  let x1 := x1 + nodeRadius * m.cos angle
  let y1 := y1 + nodeRadius * m.sin angle
  let c := c.beginPath
  let c := c.moveTo x1 y1
  let c := c.lineTo x2 y2
  let c := c.stroke
  let c := c.beginPath
  let c := c.moveTo x2 y2
  let c := c.lineTo (x2 - headLength * m.cos (angle - m.pi / 6))
                    (y2 - headLength * m.sin (angle - m.pi / 6))
  let c := c.moveTo x2 y2
  let c := c.lineTo (x2 - headLength * m.cos (angle + m.pi / 6))
                    (y2 - headLength * m.sin (angle + m.pi / 6))
  c.stroke

/-- `drawNode(x, y, label, color)` of the light variant. -/
def drawNode (m : JsMath F) (c : Ctx F) (x y : F) (label color : String) : Ctx F :=
  let radius : F := 25
  let c := c.setFillStyle color
  let c := c.beginPath
  let c := c.arc x y radius 0 (2 * m.pi)
  let c := c.fill
  let c := c.setStrokeStyle "#333"
  let c := c.setLineWidth 2
  let c := c.stroke
  let c := c.setFillStyle "#fff"
  let c := c.setFont "bold 14px Arial"
  let c := c.setTextAlign "center"
  let c := c.setTextBaseline "middle"
  c.fillTextOp label x y

/-- The `edges.forEach` callback of the light `drawWaitForGraph`: draw an
arrow only when both endpoints resolve to positions. -/
def edgeStep (m : JsMath F) (positions : String → Option (Point F))
    (c : Ctx F) (edge : WFGEdge) : Ctx F :=
  match positions edge.fromId, positions edge.toId with
  | some fromPos, some toPos => drawArrow m c fromPos.x fromPos.y toPos.x toPos.y
  | _, _ => c

/-- The `nodes.forEach` callback of the light `drawWaitForGraph`.  The
`none` branch is unreachable: the positions object is keyed by the very
same `nodes` list. -/
def nodeStep (m : JsMath F) (positions : String → Option (Point F))
    (c : Ctx F) (node : String) : Ctx F :=
  match positions node with
  | some pos => drawNode m c pos.x pos.y node "#667eea"
  | none => c

/-- Body of the light `drawWaitForGraph(wfgData)` once the `this.ctx`
guard has passed, acting on the bound context; `canvasWidth`/`canvasHeight`
are `this.canvas.width`/`this.canvas.height`. -/
def drawWaitForGraphCtx (m : JsMath F) (canvasWidth canvasHeight : F)
    (c : Ctx F) (wfgData : WFGData) : Ctx F :=
  let c := clear c canvasWidth canvasHeight
  let nodes := wfgData.nodes
  let edges := wfgData.edges
  let centerX := canvasWidth / 2
  let centerY := canvasHeight / 2
  let radius := layoutRadius centerX centerY 50
  let positions := nodePositions m centerX centerY radius nodes
  let c := c.setStrokeStyle "#dc3545"
  let c := c.setLineWidth 2
  let c := edges.foldl (edgeStep m positions) c
  nodes.foldl (nodeStep m positions) c

/-- `drawWaitForGraph(wfgData)` of the light variant: `if (!this.ctx)
return;`, then the drawing body.  A visualizer with a context but no
canvas is unreachable through the constructor; there `this.clear()` would
dereference `this.canvas`, hence the `typeError`. -/
def Visualizer.drawWaitForGraph (m : JsMath F) (v : Visualizer F)
    (wfgData : WFGData) : Except JsError (Visualizer F) :=
  match v.ctx with
  | none => Except.ok v
  | some c =>
      match v.canvas with
      | none => Except.error JsError.typeError
      | some canvas =>
          Except.ok { v with
            ctx := some (drawWaitForGraphCtx m canvas.width canvas.height c wfgData) }

/-- The per-state callback of the light `drawFSADiagram` loop: inline
position computation, `state === currentState` picks the active color. -/
def fsaStep (m : JsMath F) (centerX centerY radius : F) (n : ℕ)
    (currentState : String) (c : Ctx F) (p : ℕ × String) : Ctx F :=
  let pos := circlePoint m centerX centerY radius n p.1
  let color := if p.2 = currentState then "#28a745" else "#6c757d"
  drawNode m c pos.x pos.y p.2 color

/-- Body of the light `drawFSADiagram(states, currentState)` acting on
the bound context (positions are computed inline in the state loop,
without a positions object). -/
def drawFSADiagramCtx (m : JsMath F) (canvasWidth canvasHeight : F)
    (c : Ctx F) (states : StatesArg) (currentState : String) : Ctx F :=
  let c := clear c canvasWidth canvasHeight
  let stateList := states.toList
  let centerX := canvasWidth / 2
  let centerY := canvasHeight / 2
  let radius := layoutRadius centerX centerY 50
  stateList.enum.foldl
    (fsaStep m centerX centerY radius stateList.length currentState) c

/-- `drawFSADiagram(states, currentState)` of the light variant.  Unlike
`drawWaitForGraph`, the source has **no** `this.ctx` guard: the call
starts with `this.clear()`, which dereferences the undefined `this.ctx`
(and the null `this.canvas`) of a visualizer whose canvas was not found,
raising a `TypeError`. -/
def Visualizer.drawFSADiagram (m : JsMath F) (v : Visualizer F)
    (states : StatesArg) (currentState : String) : Except JsError (Visualizer F) :=
  match v.ctx, v.canvas with
  | some c, some canvas =>
      Except.ok { v with
        ctx := some (drawFSADiagramCtx m canvas.width canvas.height c states currentState) }
  | _, _ => Except.error JsError.typeError

/-- Operations `clear()` paints. -/
def clearOps (canvasWidth canvasHeight : F) : List (CanvasOp F) :=
  [CanvasOp.clearRect 0 0 canvasWidth canvasHeight,
   CanvasOp.fillRect 0 0 canvasWidth canvasHeight "#f8f9fa"]

/-- Operations `drawArrow` paints, under stroke style `ss` and line width
`lw` (the light `drawArrow` sets neither and strokes with whatever the
caller left in the context). -/
def arrowOps (m : JsMath F) (x1 y1 x2 y2 : F) (ss : String) (lw : F) :
    List (CanvasOp F) :=
  let headLength : F := 15
  let angle := m.atan2 (y2 - y1) (x2 - x1)
  let nodeRadius : F := 25
  let x2a := x2 - nodeRadius * m.cos angle
  let y2a := y2 - nodeRadius * m.sin angle
  let x1a := x1 + nodeRadius * m.cos angle
  let y1a := y1 + nodeRadius * m.sin angle
  [CanvasOp.strokePath [PathSeg.move x1a y1a, PathSeg.line x2a y2a] ss lw,
   CanvasOp.strokePath
     [PathSeg.move x2a y2a,
      PathSeg.line (x2a - headLength * m.cos (angle - m.pi / 6))
                   (y2a - headLength * m.sin (angle - m.pi / 6)),
      PathSeg.move x2a y2a,
      PathSeg.line (x2a - headLength * m.cos (angle + m.pi / 6))
                   (y2a - headLength * m.sin (angle + m.pi / 6))] ss lw]

/-- Operations `drawNode` paints. -/
def nodeOps (m : JsMath F) (x y : F) (label color : String) : List (CanvasOp F) :=
  [CanvasOp.fillPath [PathSeg.arc x y 25 0 (2 * m.pi)] color,
   CanvasOp.strokePath [PathSeg.arc x y 25 0 (2 * m.pi)] "#333" 2,
   CanvasOp.fillText label x y "#fff" "bold 14px Arial" "center" "middle"]

/-- Operations contributed by one edge of the light `drawWaitForGraph`:
an arrow when both endpoints resolve, nothing otherwise. -/
def edgeOps (m : JsMath F) (positions : String → Option (Point F))
    (edge : WFGEdge) : List (CanvasOp F) :=
  match positions edge.fromId, positions edge.toId with
  | some fromPos, some toPos =>
      arrowOps m fromPos.x fromPos.y toPos.x toPos.y "#dc3545" 2
  | _, _ => []

/-- Operations contributed by one node of the light `drawWaitForGraph`. -/
def wfgNodeOps (m : JsMath F) (positions : String → Option (Point F))
    (node : String) : List (CanvasOp F) :=
  match positions node with
  | some pos => nodeOps m pos.x pos.y node "#667eea"
  | none => []

/-- Everything one light `drawWaitForGraph` call paints, in order:
background, edges (endpoint-resolved only), nodes. -/
def wfgOps (m : JsMath F) (canvasWidth canvasHeight : F) (wfgData : WFGData) :
    List (CanvasOp F) :=
  let centerX := canvasWidth / 2
  let centerY := canvasHeight / 2
  let radius := layoutRadius centerX centerY 50
  let positions := nodePositions m centerX centerY radius wfgData.nodes
  clearOps canvasWidth canvasHeight ++
    wfgData.edges.flatMap (edgeOps m positions) ++
    wfgData.nodes.flatMap (wfgNodeOps m positions)

/-- Operations contributed by one (index, state) pair of the light
`drawFSADiagram` loop. -/
def fsaNodeOps (m : JsMath F) (centerX centerY radius : F) (n : ℕ)
    (currentState : String) (p : ℕ × String) : List (CanvasOp F) :=
  let pos := circlePoint m centerX centerY radius n p.1
  let color := if p.2 = currentState then "#28a745" else "#6c757d"
  nodeOps m pos.x pos.y p.2 color

/-- Everything one light `drawFSADiagram` call paints. -/
def fsaOps (m : JsMath F) (canvasWidth canvasHeight : F) (states : StatesArg)
    (currentState : String) : List (CanvasOp F) :=
  let stateList := states.toList
  let centerX := canvasWidth / 2
  let centerY := canvasHeight / 2
  let radius := layoutRadius centerX centerY 50
  clearOps canvasWidth canvasHeight ++
    stateList.enum.flatMap
      (fsaNodeOps m centerX centerY radius stateList.length currentState)

end Light

namespace Dark

/-- The canvas element as the dark variant uses it: `getBoundingClientRect`
yields the logical size the renders draw in.  The constructor's high-DPI
setup (`canvas.width = rect.width * dpr`, `ctx.scale(dpr, dpr)`) makes all
subsequent coordinates logical; the scale transform itself is absorbed
here by expressing every operation in logical units. -/
structure Canvas (F : Type) where
  rectWidth : F
  rectHeight : F
  deriving DecidableEq

/-- The dark `DeadlockVisualizer` object. -/
structure Visualizer (F : Type) where
  canvas : Option (Canvas F)
  ctx : Option (Ctx F)
  deriving DecidableEq

/-- `new DeadlockVisualizer(canvasId)` of the dark variant: warn and
return early when the canvas is not found, otherwise bind a fresh context
(and perform the device-pixel-ratio setup, absorbed into logical units). -/
def mkVisualizer (found : Option (Canvas F)) : Visualizer F :=
  match found with
  | none => { canvas := none, ctx := none }
  | some canvas => { canvas := some canvas, ctx := some Ctx.initial }

/-- `clearCanvas()` of the dark variant: clear the whole logical rect,
then paint the `#0f172a` background.  (Its own `!this.ctx` guard is
vacuous here since the context is already in hand.) -/
def clearCanvas (c : Ctx F) (rectWidth rectHeight : F) : Ctx F :=
  let c := c.clearRect 0 0 rectWidth rectHeight
  let c := c.setFillStyle "#0f172a"
  c.fillRect 0 0 rectWidth rectHeight

/-- `drawArrow(x1, y1, x2, y2, color)` of the dark variant: shortened
line, then a closed, filled triangular arrowhead; `color || '#94a3b8'`
falls back when `color` is missing. -/
def drawArrow (m : JsMath F) (c : Ctx F) (x1 y1 x2 y2 : F)
    (color : Option String) : Ctx F :=
  let headLength : F := 12
  let nodeRadius : F := 30
  let angle := m.atan2 (y2 - y1) (x2 - x1)
  let startX := x1 + nodeRadius * m.cos angle
  let startY := y1 + nodeRadius * m.sin angle
  let endX := x2 - nodeRadius * m.cos angle
  let endY := y2 - nodeRadius * m.sin angle
  let c := c.setStrokeStyle (color.getD "#94a3b8")
  let c := c.beginPath
  let c := c.moveTo startX startY
  let c := c.lineTo endX endY
  let c := c.stroke
  let c := c.beginPath
  let c := c.moveTo endX endY
  let c := c.lineTo (endX - headLength * m.cos (angle - m.pi / 6))
                    (endY - headLength * m.sin (angle - m.pi / 6))
  let c := c.lineTo (endX - headLength * m.cos (angle + m.pi / 6))
                    (endY - headLength * m.sin (angle + m.pi / 6))
  let c := c.closePath
  let c := c.setFillStyle (color.getD "#94a3b8")
  c.fill

/-- `drawNode(x, y, label, color)` of the dark variant (glow effect via
the shadow attributes, dark disc, colored outline, light label). -/
def drawNode (m : JsMath F) (c : Ctx F) (x y : F) (label color : String) : Ctx F :=
  let radius : F := 28
  let c := c.setShadowBlur 15
  let c := c.setShadowColor color
  let c := c.setFillStyle "#1e293b"
  let c := c.beginPath
  let c := c.arc x y radius 0 (2 * m.pi)
  let c := c.fill
  let c := c.setStrokeStyle color
  let c := c.setLineWidth 3
  let c := c.stroke
  let c := c.setShadowBlur 0
  let c := c.setFillStyle "#f1f5f9"
  let c := c.setFont "bold 14px \"Segoe UI\", Arial"
  let c := c.setTextAlign "center"
  let c := c.setTextBaseline "middle"
  c.fillTextOp label x y

/-- The `edges.forEach` callback of the dark `drawWaitForGraph`; a
deadlock-red arrow color is always passed at this call site. -/
def edgeStep (m : JsMath F) (positions : String → Option (Point F))
    (c : Ctx F) (edge : WFGEdge) : Ctx F :=
  match positions edge.fromId, positions edge.toId with
  | some startPos, some endPos =>
      drawArrow m c startPos.x startPos.y endPos.x endPos.y (some "#f87171")
  | _, _ => c

/-- The `nodes.forEach` callback of the dark `drawWaitForGraph`:
`wfgData.deadlockedNodes && wfgData.deadlockedNodes.includes(node)` picks
the alert color.  The `none` lookup branch is unreachable (the positions
object is keyed by the same `nodes` list). -/
def nodeStep (m : JsMath F) (positions : String → Option (Point F))
    (deadlockedNodes : Option (List String)) (c : Ctx F) (node : String) : Ctx F :=
  match positions node with
  | some pos =>
      let isDeadlocked :=
        match deadlockedNodes with
        | some deadlocked => deadlocked.contains node
        | none => false
      let color := if isDeadlocked then "#ef4444" else "#38bdf8"
      drawNode m c pos.x pos.y node color
  | none => c

/-- Body of the dark `drawWaitForGraph(wfgData)` once the
`!this.ctx || !wfgData` guard has passed;
`rectWidth`/`rectHeight` come from `getBoundingClientRect`. -/
def drawWaitForGraphCtx (m : JsMath F) (rectWidth rectHeight : F)
    (c : Ctx F) (wfgData : WFGData) : Ctx F :=
  let c := clearCanvas c rectWidth rectHeight
  let nodes := wfgData.nodes
  let edges := wfgData.edges
  let centerX := rectWidth / 2
  let centerY := rectHeight / 2
  let radius := layoutRadius centerX centerY 60
  let positions := nodePositions m centerX centerY radius nodes
  let c := c.setStrokeStyle "#94a3b8"
  let c := c.setLineWidth 2
  let c := edges.foldl (edgeStep m positions) c
  nodes.foldl (nodeStep m positions wfgData.deadlockedNodes) c

/-- `drawWaitForGraph(wfgData)` of the dark variant:
`if (!this.ctx || !wfgData) return;` then the drawing body.  A visualizer
with a context but no canvas is unreachable through the constructor;
there `getBoundingClientRect` on a null canvas would raise. -/
def Visualizer.drawWaitForGraph (m : JsMath F) (v : Visualizer F)
    (wfgData : Option WFGData) : Except JsError (Visualizer F) :=
  match v.ctx with
  | none => Except.ok v
  | some c =>
      match wfgData with
      | none => Except.ok v
      | some data =>
          match v.canvas with
          | none => Except.error JsError.typeError
          | some canvas =>
              Except.ok { v with
                ctx := some (drawWaitForGraphCtx m canvas.rectWidth canvas.rectHeight c data) }

/-- The per-state callback of the dark `drawFSADiagram` loop. -/
def fsaStep (m : JsMath F) (centerX centerY radius : F) (n : ℕ)
    (currentState : String) (c : Ctx F) (p : ℕ × String) : Ctx F :=
  let pos := circlePoint m centerX centerY radius n p.1
  let color := if p.2 = currentState then "#10b981" else "#475569"
  drawNode m c pos.x pos.y p.2 color

/-- Body of the dark `drawFSADiagram(states, currentState)` once the
`!this.ctx || !states` guard has passed. -/
def drawFSADiagramCtx (m : JsMath F) (rectWidth rectHeight : F)
    (c : Ctx F) (states : StatesArg) (currentState : String) : Ctx F :=
  let c := clearCanvas c rectWidth rectHeight
  let stateList := states.toList
  let centerX := rectWidth / 2
  let centerY := rectHeight / 2
  let radius := layoutRadius centerX centerY 60
  stateList.enum.foldl
    (fsaStep m centerX centerY radius stateList.length currentState) c

/-- `drawFSADiagram(states, currentState)` of the dark variant:
`if (!this.ctx || !states) return;` then the drawing body. -/
def Visualizer.drawFSADiagram (m : JsMath F) (v : Visualizer F)
    (states : Option StatesArg) (currentState : String) :
    Except JsError (Visualizer F) :=
  match v.ctx with
  | none => Except.ok v
  | some c =>
      match states with
      | none => Except.ok v
      | some sts =>
          match v.canvas with
          | none => Except.error JsError.typeError
          | some canvas =>
              Except.ok { v with
                ctx := some (drawFSADiagramCtx m canvas.rectWidth canvas.rectHeight c sts currentState) }

/-- Operations `clearCanvas()` paints. -/
def clearOps (rectWidth rectHeight : F) : List (CanvasOp F) :=
  [CanvasOp.clearRect 0 0 rectWidth rectHeight,
   CanvasOp.fillRect 0 0 rectWidth rectHeight "#0f172a"]

/-- Operations the dark `drawArrow` paints, under line width `lw` (the
only style it reads without setting). -/
def arrowOps (m : JsMath F) (x1 y1 x2 y2 : F) (color : Option String)
    (lw : F) : List (CanvasOp F) :=
  let headLength : F := 12
  let nodeRadius : F := 30
  let angle := m.atan2 (y2 - y1) (x2 - x1)
  let startX := x1 + nodeRadius * m.cos angle
  let startY := y1 + nodeRadius * m.sin angle
  let endX := x2 - nodeRadius * m.cos angle
  let endY := y2 - nodeRadius * m.sin angle
  [CanvasOp.strokePath [PathSeg.move startX startY, PathSeg.line endX endY]
     (color.getD "#94a3b8") lw,
   CanvasOp.fillPath
     [PathSeg.move endX endY,
      PathSeg.line (endX - headLength * m.cos (angle - m.pi / 6))
                   (endY - headLength * m.sin (angle - m.pi / 6)),
      PathSeg.line (endX - headLength * m.cos (angle + m.pi / 6))
                   (endY - headLength * m.sin (angle + m.pi / 6)),
      PathSeg.close]
     (color.getD "#94a3b8")]

/-- Operations the dark `drawNode` paints. -/
def nodeOps (m : JsMath F) (x y : F) (label color : String) : List (CanvasOp F) :=
  [CanvasOp.fillPath [PathSeg.arc x y 28 0 (2 * m.pi)] "#1e293b",
   CanvasOp.strokePath [PathSeg.arc x y 28 0 (2 * m.pi)] color 3,
   CanvasOp.fillText label x y "#f1f5f9" "bold 14px \"Segoe UI\", Arial"
     "center" "middle"]

/-- Operations contributed by one edge of the dark `drawWaitForGraph`. -/
def edgeOps (m : JsMath F) (positions : String → Option (Point F))
    (edge : WFGEdge) : List (CanvasOp F) :=
  match positions edge.fromId, positions edge.toId with
  | some startPos, some endPos =>
      arrowOps m startPos.x startPos.y endPos.x endPos.y (some "#f87171") 2
  | _, _ => []

/-- The node color the dark `drawWaitForGraph` loop selects:
alert red for a node listed in `deadlockedNodes`, neon cyan otherwise
(including when `deadlockedNodes` is absent). -/
def wfgNodeColor (deadlockedNodes : Option (List String)) (node : String) : String :=
  let isDeadlocked :=
    match deadlockedNodes with
    | some deadlocked => deadlocked.contains node
    | none => false
  if isDeadlocked then "#ef4444" else "#38bdf8"

/-- Operations contributed by one node of the dark `drawWaitForGraph`. -/
def wfgNodeOps (m : JsMath F) (positions : String → Option (Point F))
    (deadlockedNodes : Option (List String)) (node : String) : List (CanvasOp F) :=
  match positions node with
  | some pos => nodeOps m pos.x pos.y node (wfgNodeColor deadlockedNodes node)
  | none => []

/-- Everything one dark `drawWaitForGraph` call paints, in order:
background, edges (endpoint-resolved only), nodes with their
state-selected colors. -/
def wfgOps (m : JsMath F) (rectWidth rectHeight : F) (wfgData : WFGData) :
    List (CanvasOp F) :=
  let centerX := rectWidth / 2
  let centerY := rectHeight / 2
  let radius := layoutRadius centerX centerY 60
  let positions := nodePositions m centerX centerY radius wfgData.nodes
  clearOps rectWidth rectHeight ++
    wfgData.edges.flatMap (edgeOps m positions) ++
    wfgData.nodes.flatMap (wfgNodeOps m positions wfgData.deadlockedNodes)

/-- Operations contributed by one (index, state) pair of the dark
`drawFSADiagram` loop. -/
def fsaNodeOps (m : JsMath F) (centerX centerY radius : F) (n : ℕ)
    (currentState : String) (p : ℕ × String) : List (CanvasOp F) :=
  let pos := circlePoint m centerX centerY radius n p.1
  let color := if p.2 = currentState then "#10b981" else "#475569"
  nodeOps m pos.x pos.y p.2 color

/-- Everything one dark `drawFSADiagram` call paints. -/
def fsaOps (m : JsMath F) (rectWidth rectHeight : F) (states : StatesArg)
    (currentState : String) : List (CanvasOp F) :=
  let stateList := states.toList
  let centerX := rectWidth / 2
  let centerY := rectHeight / 2
  let radius := layoutRadius centerX centerY 60
  clearOps rectWidth rectHeight ++
    stateList.enum.flatMap
      (fsaNodeOps m centerX centerY radius stateList.length currentState)

end Dark

/-- A concrete `Math` stand-in over `ℚ`, for evaluating the model at
concrete inputs (the geometric claims fix the real functions instead). -/
def ratMath : JsMath ℚ :=
  { pi := 0, cos := fun _ => 0, sin := fun _ => 0, atan2 := fun _ _ => 0 }

/-- Number of painted path-fill operations that use the light variant's
active FSA color `#28a745` (the current-state highlight). -/
def activeFillCount (ops : List (CanvasOp F)) : ℕ :=
  ops.countP (fun op =>
    match op with
    | CanvasOp.fillPath _ s => s == "#28a745"
    | _ => false)

/-! ### Lemmas: lookup behaviour of the positions object, and what
each drawing routine appends to the context output -/

lemma nodePositions_eq_foldl (m : JsMath F) (centerX centerY radius : F)
    (nodes : List String) :
    nodePositions m centerX centerY radius nodes =
      nodes.enum.foldl (assignPos (circlePoint m centerX centerY radius nodes.length))
        (fun _ => none) := rfl

lemma assign_foldl_of_not_mem (pt : ℕ → Point F) :
    ∀ (l : List (ℕ × String)) (base : String → Option (Point F)) (key : String),
      (∀ p ∈ l, p.2 ≠ key) → (l.foldl (assignPos pt) base) key = base key := by
  intro l
  induction l with
  | nil => intro base key _; rfl
  | cons a t ih =>
      intro base key hk
      have ha : a.2 ≠ key := hk a (List.mem_cons_self a t)
      have ht : ∀ p ∈ t, p.2 ≠ key := fun p hp => hk p (List.mem_cons_of_mem a hp)
      have hstep : assignPos pt base a key = base key := by
        have hne : ¬ key = a.2 := fun h => ha h.symm
        simp only [assignPos, if_neg hne]
      calc ((a :: t).foldl (assignPos pt) base) key
          = (t.foldl (assignPos pt) (assignPos pt base a)) key := rfl
        _ = assignPos pt base a key := ih _ key ht
        _ = base key := hstep

lemma assign_foldl_isSome (pt : ℕ → Point F) :
    ∀ (l : List (ℕ × String)) (base : String → Option (Point F)) (key : String),
      ((l.foldl (assignPos pt) base) key).isSome ↔
        (∃ p ∈ l, p.2 = key) ∨ (base key).isSome := by
  intro l
  induction l with
  | nil => intro base key; simp
  | cons a t ih =>
      intro base key
      simp only [List.foldl_cons, ih]
      by_cases hk : key = a.2
      · constructor
        · intro _; exact Or.inl ⟨a, List.mem_cons_self a t, hk.symm⟩
        · intro _
          refine Or.inr ?_
          simp [assignPos, hk]
      · have hbase : assignPos pt base a key = base key := by
          simp only [assignPos, if_neg hk]
        rw [hbase]
        constructor
        · rintro (⟨p, hp, hpk⟩ | hb)
          · exact Or.inl ⟨p, List.mem_cons_of_mem a hp, hpk⟩
          · exact Or.inr hb
        · rintro (⟨p, hp, hpk⟩ | hb)
          · rcases List.mem_cons.mp hp with rfl | hpt
            · exact absurd hpk.symm hk
            · exact Or.inl ⟨p, hpt, hpk⟩
          · exact Or.inr hb

lemma assign_foldl_get (pt : ℕ → Point F) :
    ∀ (nodes : List String) (s : ℕ) (base : String → Option (Point F))
      (i : ℕ) (hi : i < nodes.length), nodes.Nodup →
      ((nodes.enumFrom s).foldl (assignPos pt) base) (nodes.get ⟨i, hi⟩) =
        some (pt (s + i)) := by
  intro nodes
  induction nodes with
  | nil => intro s base i hi _; exact absurd hi (Nat.not_lt_zero i)
  | cons a t ih =>
      intro s base i hi hnd
      rcases List.nodup_cons.mp hnd with ⟨hna, hndt⟩
      match i with
      | 0 =>
          have hnot : ∀ p ∈ t.enumFrom (s + 1), p.2 ≠ a := by
            intro p hp hpa
            have hsnd : p.2 ∈ t := by
              have hmap := List.enumFrom_map_snd (s + 1) t
              exact hmap ▸ List.mem_map_of_mem Prod.snd hp
            exact hna (hpa ▸ hsnd)
          calc (((a :: t).enumFrom s).foldl (assignPos pt) base) ((a :: t).get ⟨0, hi⟩)
              = ((t.enumFrom (s + 1)).foldl (assignPos pt) (assignPos pt base (s, a))) a := rfl
            _ = assignPos pt base (s, a) a := assign_foldl_of_not_mem pt _ _ a hnot
            _ = some (pt s) := by simp [assignPos]
            _ = some (pt (s + 0)) := by simp
      | Nat.succ j =>
          have hj : j < t.length := Nat.lt_of_succ_lt_succ hi
          calc (((a :: t).enumFrom s).foldl (assignPos pt) base) ((a :: t).get ⟨j + 1, hi⟩)
              = ((t.enumFrom (s + 1)).foldl (assignPos pt) (assignPos pt base (s, a)))
                  (t.get ⟨j, hj⟩) := rfl
            _ = some (pt (s + 1 + j)) := ih (s + 1) _ j hj hndt
            _ = some (pt (s + (j + 1))) := by
                  have : s + 1 + j = s + (j + 1) := by omega
                  rw [this]

/-- A key resolves in the positions object exactly when it occurs in the
node list. -/
lemma nodePositions_isSome_iff (m : JsMath F) (centerX centerY radius : F)
    (nodes : List String) (key : String) :
    (nodePositions m centerX centerY radius nodes key).isSome ↔ key ∈ nodes := by
  rw [nodePositions_eq_foldl, assign_foldl_isSome]
  simp only [Option.isSome_none, Bool.false_eq_true, or_false]
  constructor
  · rintro ⟨p, hp, hpk⟩
    have hmap := List.enum_map_snd nodes
    exact hmap ▸ (hpk ▸ List.mem_map_of_mem Prod.snd hp)
  · intro hmem
    have : key ∈ nodes.enum.map Prod.snd := (List.enum_map_snd nodes).symm ▸ hmem
    rcases List.mem_map.mp this with ⟨p, hp, hpk⟩
    exact ⟨p, hp, hpk⟩

/-- In a duplicate-free node list, the node at index `i` resolves to the
`i`-th point of the layout circle. -/
lemma nodePositions_get (m : JsMath F) (centerX centerY radius : F)
    (nodes : List String) (hnd : nodes.Nodup) (i : ℕ) (hi : i < nodes.length) :
    nodePositions m centerX centerY radius nodes (nodes.get ⟨i, hi⟩) =
      some (circlePoint m centerX centerY radius nodes.length i) := by
  rw [nodePositions_eq_foldl]
  have h := assign_foldl_get (circlePoint m centerX centerY radius nodes.length)
    nodes 0 (fun _ => none) i hi hnd
  simpa using h

/-- If every fold step appends operations that do not depend on the
incoming context (given an invariant the step preserves), the whole fold
appends the concatenation. -/
lemma foldl_ops_bind {α : Type} (f : Ctx F → α → Ctx F) (P : Ctx F → Prop)
    (g : α → List (CanvasOp F))
    (hf : ∀ c a, P c → (f c a).ops = c.ops ++ g a ∧ P (f c a)) :
    ∀ (l : List α) (c : Ctx F), P c →
      (l.foldl f c).ops = c.ops ++ l.flatMap g := by
  intro l
  induction l with
  | nil => intro c _; simp
  | cons a t ih =>
      intro c hc
      rcases hf c a hc with ⟨hops, hP⟩
      calc ((a :: t).foldl f c).ops = (t.foldl f (f c a)).ops := rfl
        _ = (f c a).ops ++ t.flatMap g := ih (f c a) hP
        _ = (c.ops ++ g a) ++ t.flatMap g := by rw [hops]
        _ = c.ops ++ (a :: t).flatMap g := by simp [List.flatMap_cons, List.append_assoc]

namespace Light

lemma clear_ops (c : Ctx F) (w h : F) :
    (clear c w h).ops = c.ops ++ clearOps w h := by
  simp [clear, clearOps, Ctx.clearRect, Ctx.setFillStyle, Ctx.fillRect]

lemma drawArrow_ops (m : JsMath F) (c : Ctx F) (x1 y1 x2 y2 : F) :
    (drawArrow m c x1 y1 x2 y2).ops =
      c.ops ++ arrowOps m x1 y1 x2 y2 c.strokeStyle c.lineWidth := by
  simp [drawArrow, arrowOps, Ctx.beginPath, Ctx.moveTo, Ctx.lineTo, Ctx.stroke]

lemma drawArrow_strokeStyle (m : JsMath F) (c : Ctx F) (x1 y1 x2 y2 : F) :
    (drawArrow m c x1 y1 x2 y2).strokeStyle = c.strokeStyle := by
  simp [drawArrow, Ctx.beginPath, Ctx.moveTo, Ctx.lineTo, Ctx.stroke]

lemma drawArrow_lineWidth (m : JsMath F) (c : Ctx F) (x1 y1 x2 y2 : F) :
    (drawArrow m c x1 y1 x2 y2).lineWidth = c.lineWidth := by
  simp [drawArrow, Ctx.beginPath, Ctx.moveTo, Ctx.lineTo, Ctx.stroke]

lemma drawNode_ops (m : JsMath F) (c : Ctx F) (x y : F) (label color : String) :
    (drawNode m c x y label color).ops = c.ops ++ nodeOps m x y label color := by
  simp [drawNode, nodeOps, Ctx.setFillStyle, Ctx.beginPath, Ctx.arc, Ctx.fill,
    Ctx.setStrokeStyle, Ctx.setLineWidth, Ctx.stroke, Ctx.setFont,
    Ctx.setTextAlign, Ctx.setTextBaseline, Ctx.fillTextOp]

lemma edgeStep_ops (m : JsMath F) (positions : String → Option (Point F))
    (c : Ctx F) (edge : WFGEdge)
    (hss : c.strokeStyle = "#dc3545") (hlw : c.lineWidth = 2) :
    (edgeStep m positions c edge).ops = c.ops ++ edgeOps m positions edge := by
  rcases hf : positions edge.fromId with _ | fp <;>
    rcases ht : positions edge.toId with _ | tp <;>
    simp [edgeStep, edgeOps, hf, ht, drawArrow_ops, hss, hlw]

lemma edgeStep_strokeStyle (m : JsMath F) (positions : String → Option (Point F))
    (c : Ctx F) (edge : WFGEdge) :
    (edgeStep m positions c edge).strokeStyle = c.strokeStyle := by
  rcases hf : positions edge.fromId with _ | fp <;>
    rcases ht : positions edge.toId with _ | tp <;>
    simp [edgeStep, hf, ht, drawArrow_strokeStyle]

lemma edgeStep_lineWidth (m : JsMath F) (positions : String → Option (Point F))
    (c : Ctx F) (edge : WFGEdge) :
    (edgeStep m positions c edge).lineWidth = c.lineWidth := by
  rcases hf : positions edge.fromId with _ | fp <;>
    rcases ht : positions edge.toId with _ | tp <;>
    simp [edgeStep, hf, ht, drawArrow_lineWidth]

lemma nodeStep_ops (m : JsMath F) (positions : String → Option (Point F))
    (c : Ctx F) (node : String) :
    (nodeStep m positions c node).ops = c.ops ++ wfgNodeOps m positions node := by
  rcases hn : positions node with _ | pos <;>
    simp [nodeStep, wfgNodeOps, hn, drawNode_ops]

lemma drawWaitForGraphCtx_ops (m : JsMath F) (canvasWidth canvasHeight : F)
    (c : Ctx F) (wfgData : WFGData) :
    (drawWaitForGraphCtx m canvasWidth canvasHeight c wfgData).ops =
      c.ops ++ wfgOps m canvasWidth canvasHeight wfgData := by
  unfold drawWaitForGraphCtx wfgOps
  simp only []
  have hedges := foldl_ops_bind (F := F) (edgeStep m
      (nodePositions m (canvasWidth / 2) (canvasHeight / 2)
        (layoutRadius (canvasWidth / 2) (canvasHeight / 2) 50) wfgData.nodes))
    (fun c => c.strokeStyle = "#dc3545" ∧ c.lineWidth = 2)
    (edgeOps m (nodePositions m (canvasWidth / 2) (canvasHeight / 2)
        (layoutRadius (canvasWidth / 2) (canvasHeight / 2) 50) wfgData.nodes))
    (fun c a hP =>
      ⟨edgeStep_ops m _ c a hP.1 hP.2,
       ⟨by rw [edgeStep_strokeStyle]; exact hP.1,
        by rw [edgeStep_lineWidth]; exact hP.2⟩⟩)
    wfgData.edges
    (((clear c canvasWidth canvasHeight).setStrokeStyle "#dc3545").setLineWidth 2)
    ⟨rfl, rfl⟩
  have hnodes := foldl_ops_bind (F := F) (nodeStep m
      (nodePositions m (canvasWidth / 2) (canvasHeight / 2)
        (layoutRadius (canvasWidth / 2) (canvasHeight / 2) 50) wfgData.nodes))
    (fun _ => True)
    (wfgNodeOps m (nodePositions m (canvasWidth / 2) (canvasHeight / 2)
        (layoutRadius (canvasWidth / 2) (canvasHeight / 2) 50) wfgData.nodes))
    (fun c a _ => ⟨nodeStep_ops m _ c a, trivial⟩)
    wfgData.nodes
    (wfgData.edges.foldl (edgeStep m
      (nodePositions m (canvasWidth / 2) (canvasHeight / 2)
        (layoutRadius (canvasWidth / 2) (canvasHeight / 2) 50) wfgData.nodes))
      (((clear c canvasWidth canvasHeight).setStrokeStyle "#dc3545").setLineWidth 2))
    trivial
  rw [hnodes, hedges]
  have hclear : (((clear c canvasWidth canvasHeight).setStrokeStyle
      "#dc3545").setLineWidth 2).ops = c.ops ++ clearOps canvasWidth canvasHeight := by
    simp [Ctx.setStrokeStyle, Ctx.setLineWidth, clear_ops]
  rw [hclear]
  simp [List.append_assoc]

lemma fsaStep_ops (m : JsMath F) (centerX centerY radius : F) (n : ℕ)
    (currentState : String) (c : Ctx F) (p : ℕ × String) :
    (fsaStep m centerX centerY radius n currentState c p).ops =
      c.ops ++ fsaNodeOps m centerX centerY radius n currentState p := by
  simp [fsaStep, fsaNodeOps, drawNode_ops]

lemma drawFSADiagramCtx_ops (m : JsMath F) (canvasWidth canvasHeight : F)
    (c : Ctx F) (states : StatesArg) (currentState : String) :
    (drawFSADiagramCtx m canvasWidth canvasHeight c states currentState).ops =
      c.ops ++ fsaOps m canvasWidth canvasHeight states currentState := by
  unfold drawFSADiagramCtx fsaOps
  have hfold := foldl_ops_bind (F := F)
    (fsaStep m (canvasWidth / 2) (canvasHeight / 2)
      (layoutRadius (canvasWidth / 2) (canvasHeight / 2) 50)
      states.toList.length currentState)
    (fun _ => True)
    (fsaNodeOps m (canvasWidth / 2) (canvasHeight / 2)
      (layoutRadius (canvasWidth / 2) (canvasHeight / 2) 50)
      states.toList.length currentState)
    (fun c a _ => ⟨fsaStep_ops m _ _ _ _ _ c a, trivial⟩)
    states.toList.enum
    (clear c canvasWidth canvasHeight)
    trivial
  rw [hfold, clear_ops]
  simp [List.append_assoc]

end Light

namespace Dark

lemma clearCanvas_ops_dark (c : Ctx F) (w h : F) :
    (clearCanvas c w h).ops = c.ops ++ clearOps w h := by
  simp [clearCanvas, clearOps, Ctx.clearRect, Ctx.setFillStyle, Ctx.fillRect]

lemma drawArrow_ops_dark (m : JsMath F) (c : Ctx F) (x1 y1 x2 y2 : F)
    (color : Option String) :
    (drawArrow m c x1 y1 x2 y2 color).ops =
      c.ops ++ arrowOps m x1 y1 x2 y2 color c.lineWidth := by
  simp [drawArrow, arrowOps, Ctx.setStrokeStyle, Ctx.beginPath, Ctx.moveTo,
    Ctx.lineTo, Ctx.stroke, Ctx.closePath, Ctx.setFillStyle, Ctx.fill]

lemma drawArrow_lineWidth_dark (m : JsMath F) (c : Ctx F) (x1 y1 x2 y2 : F)
    (color : Option String) :
    (drawArrow m c x1 y1 x2 y2 color).lineWidth = c.lineWidth := by
  simp [drawArrow, Ctx.setStrokeStyle, Ctx.beginPath, Ctx.moveTo,
    Ctx.lineTo, Ctx.stroke, Ctx.closePath, Ctx.setFillStyle, Ctx.fill]

lemma drawNode_ops_dark (m : JsMath F) (c : Ctx F) (x y : F) (label color : String) :
    (drawNode m c x y label color).ops = c.ops ++ nodeOps m x y label color := by
  simp [drawNode, nodeOps, Ctx.setShadowBlur, Ctx.setShadowColor,
    Ctx.setFillStyle, Ctx.beginPath, Ctx.arc, Ctx.fill, Ctx.setStrokeStyle,
    Ctx.setLineWidth, Ctx.stroke, Ctx.setFont, Ctx.setTextAlign,
    Ctx.setTextBaseline, Ctx.fillTextOp]

lemma edgeStep_ops_dark (m : JsMath F) (positions : String → Option (Point F))
    (c : Ctx F) (edge : WFGEdge) (hlw : c.lineWidth = 2) :
    (edgeStep m positions c edge).ops = c.ops ++ edgeOps m positions edge := by
  rcases hf : positions edge.fromId with _ | fp <;>
    rcases ht : positions edge.toId with _ | tp <;>
    simp [edgeStep, edgeOps, hf, ht, drawArrow_ops_dark, hlw]

lemma edgeStep_lineWidth_dark (m : JsMath F) (positions : String → Option (Point F))
    (c : Ctx F) (edge : WFGEdge) :
    (edgeStep m positions c edge).lineWidth = c.lineWidth := by
  rcases hf : positions edge.fromId with _ | fp <;>
    rcases ht : positions edge.toId with _ | tp <;>
    simp [edgeStep, hf, ht, drawArrow_lineWidth_dark]

lemma nodeStep_ops_dark (m : JsMath F) (positions : String → Option (Point F))
    (deadlockedNodes : Option (List String)) (c : Ctx F) (node : String) :
    (nodeStep m positions deadlockedNodes c node).ops =
      c.ops ++ wfgNodeOps m positions deadlockedNodes node := by
  rcases hn : positions node with _ | pos <;>
    simp [nodeStep, wfgNodeOps, wfgNodeColor, hn, drawNode_ops_dark]

lemma drawWaitForGraphCtx_ops_dark (m : JsMath F) (rectWidth rectHeight : F)
    (c : Ctx F) (wfgData : WFGData) :
    (drawWaitForGraphCtx m rectWidth rectHeight c wfgData).ops =
      c.ops ++ wfgOps m rectWidth rectHeight wfgData := by
  unfold drawWaitForGraphCtx wfgOps
  have hedges := foldl_ops_bind (F := F) (edgeStep m
      (nodePositions m (rectWidth / 2) (rectHeight / 2)
        (layoutRadius (rectWidth / 2) (rectHeight / 2) 60) wfgData.nodes))
    (fun c => c.lineWidth = 2)
    (edgeOps m (nodePositions m (rectWidth / 2) (rectHeight / 2)
        (layoutRadius (rectWidth / 2) (rectHeight / 2) 60) wfgData.nodes))
    (fun c a hP =>
      ⟨edgeStep_ops_dark m _ c a hP,
       by show (edgeStep m _ c a).lineWidth = 2; rw [edgeStep_lineWidth_dark]; exact hP⟩)
    wfgData.edges
    (((clearCanvas c rectWidth rectHeight).setStrokeStyle "#94a3b8").setLineWidth 2)
    rfl
  have hnodes := foldl_ops_bind (F := F) (nodeStep m
      (nodePositions m (rectWidth / 2) (rectHeight / 2)
        (layoutRadius (rectWidth / 2) (rectHeight / 2) 60) wfgData.nodes)
      wfgData.deadlockedNodes)
    (fun _ => True)
    (wfgNodeOps m (nodePositions m (rectWidth / 2) (rectHeight / 2)
        (layoutRadius (rectWidth / 2) (rectHeight / 2) 60) wfgData.nodes)
      wfgData.deadlockedNodes)
    (fun c a _ => ⟨nodeStep_ops_dark m _ _ c a, trivial⟩)
    wfgData.nodes
    (wfgData.edges.foldl (edgeStep m
      (nodePositions m (rectWidth / 2) (rectHeight / 2)
        (layoutRadius (rectWidth / 2) (rectHeight / 2) 60) wfgData.nodes))
      (((clearCanvas c rectWidth rectHeight).setStrokeStyle "#94a3b8").setLineWidth 2))
    trivial
  rw [hnodes, hedges]
  have hclear : (((clearCanvas c rectWidth rectHeight).setStrokeStyle
      "#94a3b8").setLineWidth 2).ops = c.ops ++ clearOps rectWidth rectHeight := by
    simp [Ctx.setStrokeStyle, Ctx.setLineWidth, clearCanvas_ops_dark]
  rw [hclear]
  simp [List.append_assoc]

lemma fsaStep_ops_dark (m : JsMath F) (centerX centerY radius : F) (n : ℕ)
    (currentState : String) (c : Ctx F) (p : ℕ × String) :
    (fsaStep m centerX centerY radius n currentState c p).ops =
      c.ops ++ fsaNodeOps m centerX centerY radius n currentState p := by
  simp [fsaStep, fsaNodeOps, drawNode_ops_dark]

lemma drawFSADiagramCtx_ops_dark (m : JsMath F) (rectWidth rectHeight : F)
    (c : Ctx F) (states : StatesArg) (currentState : String) :
    (drawFSADiagramCtx m rectWidth rectHeight c states currentState).ops =
      c.ops ++ fsaOps m rectWidth rectHeight states currentState := by
  unfold drawFSADiagramCtx fsaOps
  have hfold := foldl_ops_bind (F := F)
    (fsaStep m (rectWidth / 2) (rectHeight / 2)
      (layoutRadius (rectWidth / 2) (rectHeight / 2) 60)
      states.toList.length currentState)
    (fun _ => True)
    (fsaNodeOps m (rectWidth / 2) (rectHeight / 2)
      (layoutRadius (rectWidth / 2) (rectHeight / 2) 60)
      states.toList.length currentState)
    (fun c a _ => ⟨fsaStep_ops_dark m _ _ _ _ _ c a, trivial⟩)
    states.toList.enum
    (clearCanvas c rectWidth rectHeight)
    trivial
  rw [hfold, clearCanvas_ops_dark]
  simp [List.append_assoc]

end Dark

/-! ### Claims -/

/-- **C2** (the claim's `drawFSADiagram` half fails on the light variant —
code bug): a visualizer constructed over a missing canvas leaves
`this.ctx` undefined; `drawWaitForGraph` is guarded (`if (!this.ctx)
return;`) and is a no-op, but the light `drawFSADiagram` has no such
guard: its first step `this.clear()` dereferences the undefined context
and raises a `TypeError` instead of being a no-op. -/
theorem C2_missing_surface_fsa_raises :
    (∀ (m : JsMath ℚ) (wfgData : WFGData),
      Light.Visualizer.drawWaitForGraph m (Light.mkVisualizer none) wfgData =
        Except.ok (Light.mkVisualizer none)) ∧
    (∀ (m : JsMath ℚ) (states : StatesArg) (currentState : String),
      Light.Visualizer.drawFSADiagram m (Light.mkVisualizer none) states currentState =
        Except.error JsError.typeError) :=
  ⟨fun _ _ => rfl, fun _ _ _ => rfl⟩

/-- **C4, counterexample**: the claim says the layout radius is clamped to
`≥ 0`, so that a 40×40 surface (half-dimension 20, light margin 50) would
give radius 0; the code computes `min(20, 20) - 50 = -30`, which is
negative and not 0. -/
theorem C4_radius_clamped_counterexample :
    layoutRadius (20 : ℚ) 20 50 ≠ 0 ∧ layoutRadius (20 : ℚ) 20 50 < 0 := by
  constructor <;> norm_num [layoutRadius]

/-- **C4, amended**: the layout radius equals
`min(surfaceWidth/2, surfaceHeight/2) - margin` with **no** clamping;
whenever the smaller half-dimension is below the margin the radius is
negative. -/
theorem C4_radius_unclamped_amended (centerX centerY margin : F) :
    layoutRadius centerX centerY margin = min centerX centerY - margin ∧
    (min centerX centerY < margin → layoutRadius centerX centerY margin < 0) :=
  ⟨rfl, fun h => sub_neg.mpr h⟩

theorem C4_radius_unclamped_amended_witness :
    layoutRadius (20 : ℚ) 20 50 = min 20 20 - 50 ∧ layoutRadius (20 : ℚ) 20 50 < 0 := by
  have h := C4_radius_unclamped_amended (20 : ℚ) 20 50
  exact ⟨h.1, h.2 (by norm_num)⟩

/-- **C9**: each render is a deterministic function of its snapshot: the
operations a second identical call paints (the final output list beyond
what was already there) coincide with those of the first call, for both
renders of both variants — no persisted render state influences the
output. -/
theorem C9_render_deterministic (m : JsMath F) (w h : F) (c : Ctx F)
    (wfgData : WFGData) (states : StatesArg) (currentState : String) :
    ((Light.drawWaitForGraphCtx m w h
        (Light.drawWaitForGraphCtx m w h c wfgData) wfgData).ops.drop
        (Light.drawWaitForGraphCtx m w h c wfgData).ops.length =
      (Light.drawWaitForGraphCtx m w h c wfgData).ops.drop c.ops.length) ∧
    ((Light.drawFSADiagramCtx m w h
        (Light.drawFSADiagramCtx m w h c states currentState) states currentState).ops.drop
        (Light.drawFSADiagramCtx m w h c states currentState).ops.length =
      (Light.drawFSADiagramCtx m w h c states currentState).ops.drop c.ops.length) ∧
    ((Dark.drawWaitForGraphCtx m w h
        (Dark.drawWaitForGraphCtx m w h c wfgData) wfgData).ops.drop
        (Dark.drawWaitForGraphCtx m w h c wfgData).ops.length =
      (Dark.drawWaitForGraphCtx m w h c wfgData).ops.drop c.ops.length) ∧
    ((Dark.drawFSADiagramCtx m w h
        (Dark.drawFSADiagramCtx m w h c states currentState) states currentState).ops.drop
        (Dark.drawFSADiagramCtx m w h c states currentState).ops.length =
      (Dark.drawFSADiagramCtx m w h c states currentState).ops.drop c.ops.length) := by
  refine ⟨?_, ?_, ?_, ?_⟩ <;>
    simp [Light.drawWaitForGraphCtx_ops, Light.drawFSADiagramCtx_ops,
      Dark.drawWaitForGraphCtx_ops_dark, Dark.drawFSADiagramCtx_ops_dark, List.drop_left]

/-- **C10**: in the dark variant, a `null`/`undefined` snapshot
(`drawWaitForGraph`) or states argument (`drawFSADiagram`) makes the call
return before `clearCanvas`: the visualizer — context, painted operations
and all — is returned unchanged, so the surface keeps its previous pixel
contents and no background fill is painted. -/
theorem C10_dark_null_snapshot_noop (m : JsMath F) (v : Dark.Visualizer F)
    (currentState : String) :
    Dark.Visualizer.drawWaitForGraph m v none = Except.ok v ∧
    Dark.Visualizer.drawFSADiagram m v none currentState = Except.ok v := by
  rcases v with ⟨canvas, ctx⟩
  cases ctx <;> exact ⟨rfl, rfl⟩

lemma flatMap_eq_nil_of {α β : Type} (l : List α) (f : α → List β)
    (h : ∀ a ∈ l, f a = []) : l.flatMap f = [] := by
  induction l with
  | nil => rfl
  | cons a t ih =>
      simp [List.flatMap_cons, h a (List.mem_cons_self a t),
        ih (fun x hx => h x (List.mem_cons_of_mem a hx))]

/-- **C8**: an empty node (or state) sequence yields an empty positions
mapping, and the render — whatever edges accompany it — paints only the
cleared background fill, with no division-by-zero failure (the angle
division is never executed). -/
theorem C8_empty_nodes_background_only (m : JsMath F) (w h : F) (c : Ctx F)
    (edges : List WFGEdge) (deadlockedNodes : Option (List String))
    (centerX centerY radius : F) (key : String) (currentState : String) :
    nodePositions m centerX centerY radius [] key = none ∧
    (Light.drawWaitForGraphCtx m w h c ⟨[], edges, deadlockedNodes⟩).ops =
      c.ops ++ Light.clearOps w h ∧
    (Dark.drawWaitForGraphCtx m w h c ⟨[], edges, deadlockedNodes⟩).ops =
      c.ops ++ Dark.clearOps w h ∧
    (Light.drawFSADiagramCtx m w h c (StatesArg.arr []) currentState).ops =
      c.ops ++ Light.clearOps w h := by
  refine ⟨rfl, ?_, ?_, ?_⟩
  · rw [Light.drawWaitForGraphCtx_ops]
    have hwfg : Light.wfgOps m w h ⟨[], edges, deadlockedNodes⟩ =
        Light.clearOps w h := by
      simp only [Light.wfgOps]
      rw [flatMap_eq_nil_of edges
        (Light.edgeOps m (nodePositions m (w / 2) (h / 2)
          (layoutRadius (w / 2) (h / 2) 50) [])) (fun e _ => rfl)]
      simp
    rw [hwfg]
  · rw [Dark.drawWaitForGraphCtx_ops_dark]
    have hwfg : Dark.wfgOps m w h ⟨[], edges, deadlockedNodes⟩ =
        Dark.clearOps w h := by
      simp only [Dark.wfgOps]
      rw [flatMap_eq_nil_of edges
        (Dark.edgeOps m (nodePositions m (w / 2) (h / 2)
          (layoutRadius (w / 2) (h / 2) 60) [])) (fun e _ => rfl)]
      simp
    rw [hwfg]
  · rw [Light.drawFSADiagramCtx_ops]
    have hfsa : Light.fsaOps m w h (StatesArg.arr []) currentState =
        Light.clearOps w h := by
      simp [Light.fsaOps, StatesArg.toList]
    rw [hfsa]

/-- **C1** (code bug: the light variant lacks the highlighting the claim
and spec describe): the light `drawWaitForGraph` never reads
`deadlockedNodes` — its output is identical whatever that field holds —
and at the failing snapshot (`P1`/`P2` in a cycle, both listed in
`deadlockedNodes`) it fills both node discs with the fixed default color
`#667eea` and paints no disc in any other color, so a deadlocked node is
*not* drawn in a distinct alert color.  The dark-mode update implements
the claimed behaviour: at the same snapshot it strokes both node circles
with the alert color `#ef4444`. -/
theorem C1_light_ignores_deadlocked_nodes :
    (∀ (m : JsMath ℚ) (w h : ℚ) (c : Ctx ℚ) (nodes : List String)
        (edges : List WFGEdge) (deadlockedNodes : Option (List String)),
      (Light.drawWaitForGraphCtx m w h c ⟨nodes, edges, deadlockedNodes⟩).ops =
        (Light.drawWaitForGraphCtx m w h c ⟨nodes, edges, none⟩).ops) ∧
    ((Light.drawWaitForGraphCtx ratMath 400 400 Ctx.initial
        ⟨["P1", "P2"], [⟨"P1", "P2"⟩, ⟨"P2", "P1"⟩], some ["P1", "P2"]⟩).ops.countP
        (fun op => match op with
          | CanvasOp.fillPath _ s => s == "#667eea"
          | _ => false) = 2) ∧
    ((Light.drawWaitForGraphCtx ratMath 400 400 Ctx.initial
        ⟨["P1", "P2"], [⟨"P1", "P2"⟩, ⟨"P2", "P1"⟩], some ["P1", "P2"]⟩).ops.countP
        (fun op => match op with
          | CanvasOp.fillPath _ s => !(s == "#667eea")
          | _ => false) = 0) ∧
    ((Dark.drawWaitForGraphCtx ratMath 400 400 Ctx.initial
        ⟨["P1", "P2"], [⟨"P1", "P2"⟩, ⟨"P2", "P1"⟩], some ["P1", "P2"]⟩).ops.countP
        (fun op => match op with
          | CanvasOp.strokePath _ s _ => s == "#ef4444"
          | _ => false) = 2) := by
  refine ⟨fun m w h c nodes edges deadlockedNodes => rfl, ?_, ?_, ?_⟩ <;> decide

/-- **C5**: the light `drawWaitForGraph` draws an edge exactly when both
endpoints occur in the node sequence — an edge with an unknown endpoint
contributes nothing (silently) — while every remaining edge and every
node is still drawn, and the whole call completes without error. -/
theorem C5_edge_endpoint_filtering (m : JsMath F) (w h : F) (c : Ctx F)
    (wfgData : WFGData) :
    (Light.drawWaitForGraphCtx m w h c wfgData).ops =
      c.ops ++ Light.wfgOps m w h wfgData ∧
    (∀ edge : WFGEdge,
      (edge.fromId ∈ wfgData.nodes ∧ edge.toId ∈ wfgData.nodes →
        Light.edgeOps m (nodePositions m (w / 2) (h / 2)
          (layoutRadius (w / 2) (h / 2) 50) wfgData.nodes) edge ≠ []) ∧
      (¬(edge.fromId ∈ wfgData.nodes ∧ edge.toId ∈ wfgData.nodes) →
        Light.edgeOps m (nodePositions m (w / 2) (h / 2)
          (layoutRadius (w / 2) (h / 2) 50) wfgData.nodes) edge = [])) ∧
    (∀ node ∈ wfgData.nodes, ∃ p : Point F,
      nodePositions m (w / 2) (h / 2) (layoutRadius (w / 2) (h / 2) 50)
        wfgData.nodes node = some p ∧
      CanvasOp.fillText node p.x p.y "#fff" "bold 14px Arial" "center" "middle"
        ∈ (Light.drawWaitForGraphCtx m w h c wfgData).ops) ∧
    (∀ canvas : Light.Canvas F, ∃ v2,
      Light.Visualizer.drawWaitForGraph m (Light.mkVisualizer (some canvas)) wfgData =
        Except.ok v2) := by
  refine ⟨Light.drawWaitForGraphCtx_ops m w h c wfgData, ?_, ?_, fun canvas => ⟨_, rfl⟩⟩
  · intro edge
    constructor
    · rintro ⟨hfrom, hto⟩
      obtain ⟨pf, hpf⟩ := Option.isSome_iff_exists.mp
        ((nodePositions_isSome_iff m (w / 2) (h / 2)
          (layoutRadius (w / 2) (h / 2) 50) wfgData.nodes edge.fromId).mpr hfrom)
      obtain ⟨pt, hpt⟩ := Option.isSome_iff_exists.mp
        ((nodePositions_isSome_iff m (w / 2) (h / 2)
          (layoutRadius (w / 2) (h / 2) 50) wfgData.nodes edge.toId).mpr hto)
      simp [Light.edgeOps, hpf, hpt, Light.arrowOps]
    · intro hneg
      by_cases hfrom : edge.fromId ∈ wfgData.nodes
      · have hto : edge.toId ∉ wfgData.nodes := fun hto => hneg ⟨hfrom, hto⟩
        have hnone : nodePositions m (w / 2) (h / 2)
            (layoutRadius (w / 2) (h / 2) 50) wfgData.nodes edge.toId = none := by
          rw [← Option.not_isSome_iff_eq_none, nodePositions_isSome_iff]
          exact hto
        rcases hpf : nodePositions m (w / 2) (h / 2)
            (layoutRadius (w / 2) (h / 2) 50) wfgData.nodes edge.fromId with _ | pf <;>
          simp [Light.edgeOps, hpf, hnone]
      · have hnone : nodePositions m (w / 2) (h / 2)
            (layoutRadius (w / 2) (h / 2) 50) wfgData.nodes edge.fromId = none := by
          rw [← Option.not_isSome_iff_eq_none, nodePositions_isSome_iff]
          exact hfrom
        simp [Light.edgeOps, hnone]
  · intro node hmem
    obtain ⟨p, hp⟩ := Option.isSome_iff_exists.mp
      ((nodePositions_isSome_iff m (w / 2) (h / 2)
        (layoutRadius (w / 2) (h / 2) 50) wfgData.nodes node).mpr hmem)
    refine ⟨p, hp, ?_⟩
    rw [Light.drawWaitForGraphCtx_ops]
    apply List.mem_append_right
    simp only [Light.wfgOps]
    refine List.mem_append_right _ ?_
    refine List.mem_flatMap.mpr ⟨node, hmem, ?_⟩
    simp [Light.wfgNodeOps, hp, Light.nodeOps]

theorem C5_edge_endpoint_filtering_witness :
    Light.edgeOps ratMath (nodePositions ratMath ((400 : ℚ) / 2) ((400 : ℚ) / 2)
      (layoutRadius ((400 : ℚ) / 2) ((400 : ℚ) / 2) 50) ["A", "B"]) ⟨"A", "X"⟩ = [] :=
  ((C5_edge_endpoint_filtering ratMath 400 400 Ctx.initial
    ⟨["A", "B"], [⟨"A", "X"⟩], none⟩).2.1 ⟨"A", "X"⟩).2 (by decide)

lemma activeFillCount_append (l1 l2 : List (CanvasOp F)) :
    activeFillCount (l1 ++ l2) = activeFillCount l1 + activeFillCount l2 :=
  List.countP_append _ l1 l2

lemma activeFillCount_fsaFlat (m : JsMath F) (cx cy r : F) (n : ℕ)
    (currentState : String) :
    ∀ l : List (ℕ × String),
      activeFillCount (l.flatMap (Light.fsaNodeOps m cx cy r n currentState)) =
        l.countP (fun p => p.2 == currentState) := by
  intro l
  induction l with
  | nil => rfl
  | cons p t ih =>
      rw [List.flatMap_cons, activeFillCount_append, ih, List.countP_cons]
      by_cases hpc : p.2 = currentState <;>
        simp [Light.fsaNodeOps, Light.nodeOps, activeFillCount, hpc, Nat.add_comm]

/-- **C6**: with duplicate-free state ids, the light `drawFSADiagram`
paints exactly one node disc in the active color when `currentState`
occurs among the ids (the node equal to it, by the per-state color
selection) and zero otherwise, and the render completes without error
either way. -/
theorem C6_fsa_active_highlight (m : JsMath F) (w h : F) (c : Ctx F)
    (states : StatesArg) (currentState : String)
    (hnd : states.toList.Nodup) :
    (Light.drawFSADiagramCtx m w h c states currentState).ops =
      c.ops ++ Light.fsaOps m w h states currentState ∧
    activeFillCount (Light.fsaOps m w h states currentState) =
      (if currentState ∈ states.toList then 1 else 0) ∧
    (∀ canvas : Light.Canvas F, ∃ v2,
      Light.Visualizer.drawFSADiagram m (Light.mkVisualizer (some canvas))
        states currentState = Except.ok v2) := by
  refine ⟨Light.drawFSADiagramCtx_ops m w h c states currentState, ?_,
    fun canvas => ⟨_, rfl⟩⟩
  have hcount : activeFillCount (Light.fsaOps m w h states currentState) =
      states.toList.count currentState := by
    simp only [Light.fsaOps]
    rw [activeFillCount_append, activeFillCount_fsaFlat]
    have hclear : activeFillCount (Light.clearOps w h) = 0 := rfl
    rw [hclear, Nat.zero_add]
    have hmap : states.toList.enum.countP (fun p => p.2 == currentState) =
        (states.toList.enum.map Prod.snd).countP (fun s => s == currentState) := by
      rw [List.countP_map]
      exact congrFun (congrArg List.countP (funext fun p => rfl)) states.toList.enum
    rw [hmap, List.enum_map_snd]
    rfl
  rw [hcount]
  by_cases hmem : currentState ∈ states.toList
  · rw [if_pos hmem]
    exact List.count_eq_one_of_mem hnd hmem
  · rw [if_neg hmem]
    exact List.count_eq_zero_of_not_mem hmem

theorem C6_fsa_active_highlight_witness :
    (Light.drawFSADiagramCtx ratMath 600 400 Ctx.initial
        (StatesArg.arr ["NEW", "READY", "RUNNING", "BLOCKED", "TERMINATED"])
        "RUNNING").ops =
      Ctx.initial.ops ++ Light.fsaOps ratMath 600 400
        (StatesArg.arr ["NEW", "READY", "RUNNING", "BLOCKED", "TERMINATED"])
        "RUNNING" ∧
    activeFillCount (Light.fsaOps ratMath 600 400
        (StatesArg.arr ["NEW", "READY", "RUNNING", "BLOCKED", "TERMINATED"])
        "RUNNING") =
      (if "RUNNING" ∈ (StatesArg.arr
          ["NEW", "READY", "RUNNING", "BLOCKED", "TERMINATED"]).toList
        then 1 else 0) ∧
    (∀ canvas : Light.Canvas ℚ, ∃ v2,
      Light.Visualizer.drawFSADiagram ratMath (Light.mkVisualizer (some canvas))
        (StatesArg.arr ["NEW", "READY", "RUNNING", "BLOCKED", "TERMINATED"])
        "RUNNING" = Except.ok v2) :=
  C6_fsa_active_highlight ratMath 600 400 Ctx.initial
    (StatesArg.arr ["NEW", "READY", "RUNNING", "BLOCKED", "TERMINATED"])
    "RUNNING" (by decide)

/-- **C3**: with the real trigonometric functions, the layout places the
id at index `i` of `n` at
`(w/2 + r·cos(2π·i/n), h/2 + r·sin(2π·i/n))` with
`r = min(w/2, h/2) - margin`; in particular a single id (`n = 1`) goes to
angle 0 at offset `r` from the center — not to the center itself. -/
theorem C3_circular_layout_position (m : JsMath ℝ)
    (hc : m.cos = Real.cos) (hs : m.sin = Real.sin) (hp : m.pi = Real.pi)
    (w h margin : ℝ) (nodes : List String) (hnd : nodes.Nodup)
    (i : ℕ) (hi : i < nodes.length) :
    nodePositions m (w / 2) (h / 2) (layoutRadius (w / 2) (h / 2) margin) nodes
        (nodes.get ⟨i, hi⟩) =
      some { x := w / 2 + (min (w / 2) (h / 2) - margin) *
                    Real.cos (2 * Real.pi * (i : ℝ) / (nodes.length : ℝ)),
             y := h / 2 + (min (w / 2) (h / 2) - margin) *
                    Real.sin (2 * Real.pi * (i : ℝ) / (nodes.length : ℝ)) } ∧
    (nodes.length = 1 →
      nodePositions m (w / 2) (h / 2) (layoutRadius (w / 2) (h / 2) margin) nodes
          (nodes.get ⟨i, hi⟩) =
        some { x := w / 2 + (min (w / 2) (h / 2) - margin), y := h / 2 } ∧
      (0 < min (w / 2) (h / 2) - margin →
        ({ x := w / 2 + (min (w / 2) (h / 2) - margin), y := h / 2 } : Point ℝ) ≠
          { x := w / 2, y := h / 2 })) := by
  have h1 := nodePositions_get m (w / 2) (h / 2)
    (layoutRadius (w / 2) (h / 2) margin) nodes hnd i hi
  constructor
  · rw [h1]
    simp only [circlePoint, layoutRadius, hc, hs, hp]
  · intro hlen
    have hi0 : i = 0 := by omega
    subst hi0
    constructor
    · rw [h1]
      simp [circlePoint, layoutRadius, hc, hs, hp, hlen]
    · intro hr heq
      have hx : w / 2 + (min (w / 2) (h / 2) - margin) = w / 2 := by
        have := congrArg Point.x heq
        simpa using this
      linarith

theorem C3_circular_layout_position_witness :
    nodePositions (⟨Real.pi, Real.cos, Real.sin, fun _ _ => 0⟩ : JsMath ℝ)
        ((400 : ℝ) / 2) ((300 : ℝ) / 2)
        (layoutRadius ((400 : ℝ) / 2) ((300 : ℝ) / 2) 60) ["A"]
        (List.get ["A"] ⟨0, Nat.zero_lt_one⟩) =
      some { x := (400 : ℝ) / 2 + (min ((400 : ℝ) / 2) ((300 : ℝ) / 2) - 60) *
                    Real.cos (2 * Real.pi * ((0 : ℕ) : ℝ) /
                      (((["A"] : List String).length : ℕ) : ℝ)),
             y := (300 : ℝ) / 2 + (min ((400 : ℝ) / 2) ((300 : ℝ) / 2) - 60) *
                    Real.sin (2 * Real.pi * ((0 : ℕ) : ℝ) /
                      (((["A"] : List String).length : ℕ) : ℝ)) } ∧
    ((["A"] : List String).length = 1 →
      nodePositions (⟨Real.pi, Real.cos, Real.sin, fun _ _ => 0⟩ : JsMath ℝ)
          ((400 : ℝ) / 2) ((300 : ℝ) / 2)
          (layoutRadius ((400 : ℝ) / 2) ((300 : ℝ) / 2) 60) ["A"]
          (List.get ["A"] ⟨0, Nat.zero_lt_one⟩) =
        some { x := (400 : ℝ) / 2 + (min ((400 : ℝ) / 2) ((300 : ℝ) / 2) - 60),
               y := (300 : ℝ) / 2 } ∧
      (0 < min ((400 : ℝ) / 2) ((300 : ℝ) / 2) - 60 →
        ({ x := (400 : ℝ) / 2 + (min ((400 : ℝ) / 2) ((300 : ℝ) / 2) - 60),
           y := (300 : ℝ) / 2 } : Point ℝ) ≠
          { x := (400 : ℝ) / 2, y := (300 : ℝ) / 2 })) :=
  C3_circular_layout_position ⟨Real.pi, Real.cos, Real.sin, fun _ _ => 0⟩
    rfl rfl rfl 400 300 60 ["A"] (by decide) 0 Nat.zero_lt_one

/-- **C7**: with the real trigonometric functions, the light `drawArrow`
strokes a segment whose endpoints are each pulled inward from the node
centers by the node radius 25 along the line angle
`atan2(y2-y1, x2-x1)`, followed by two arrowhead segments from the
adjusted destination at angles `(angle + π) ∓ π/6` — rotations of the
reversed line angle by `±30°` — each of head length 15. -/
theorem C7_arrow_geometry (m : JsMath ℝ)
    (hc : m.cos = Real.cos) (hs : m.sin = Real.sin) (hp : m.pi = Real.pi)
    (c : Ctx ℝ) (x1 y1 x2 y2 : ℝ) :
    (Light.drawArrow m c x1 y1 x2 y2).ops =
      c.ops ++
        [CanvasOp.strokePath
           [PathSeg.move
              (x1 + 25 * Real.cos (m.atan2 (y2 - y1) (x2 - x1)))
              (y1 + 25 * Real.sin (m.atan2 (y2 - y1) (x2 - x1))),
            PathSeg.line
              (x2 - 25 * Real.cos (m.atan2 (y2 - y1) (x2 - x1)))
              (y2 - 25 * Real.sin (m.atan2 (y2 - y1) (x2 - x1)))]
           c.strokeStyle c.lineWidth,
         CanvasOp.strokePath
           [PathSeg.move
              (x2 - 25 * Real.cos (m.atan2 (y2 - y1) (x2 - x1)))
              (y2 - 25 * Real.sin (m.atan2 (y2 - y1) (x2 - x1))),
            PathSeg.line
              (x2 - 25 * Real.cos (m.atan2 (y2 - y1) (x2 - x1)) +
                 15 * Real.cos (m.atan2 (y2 - y1) (x2 - x1) + Real.pi - Real.pi / 6))
              (y2 - 25 * Real.sin (m.atan2 (y2 - y1) (x2 - x1)) +
                 15 * Real.sin (m.atan2 (y2 - y1) (x2 - x1) + Real.pi - Real.pi / 6)),
            PathSeg.move
              (x2 - 25 * Real.cos (m.atan2 (y2 - y1) (x2 - x1)))
              (y2 - 25 * Real.sin (m.atan2 (y2 - y1) (x2 - x1))),
            PathSeg.line
              (x2 - 25 * Real.cos (m.atan2 (y2 - y1) (x2 - x1)) +
                 15 * Real.cos (m.atan2 (y2 - y1) (x2 - x1) + Real.pi + Real.pi / 6))
              (y2 - 25 * Real.sin (m.atan2 (y2 - y1) (x2 - x1)) +
                 15 * Real.sin (m.atan2 (y2 - y1) (x2 - x1) + Real.pi + Real.pi / 6))]
           c.strokeStyle c.lineWidth] ∧
    (∀ θ : ℝ,
      (x2 - 25 * Real.cos (m.atan2 (y2 - y1) (x2 - x1)) + 15 * Real.cos θ -
          (x2 - 25 * Real.cos (m.atan2 (y2 - y1) (x2 - x1)))) ^ 2 +
        (y2 - 25 * Real.sin (m.atan2 (y2 - y1) (x2 - x1)) + 15 * Real.sin θ -
          (y2 - 25 * Real.sin (m.atan2 (y2 - y1) (x2 - x1)))) ^ 2 = 15 ^ 2) := by
  constructor
  · have hcosrev : ∀ φ : ℝ, Real.cos (φ + Real.pi) = -Real.cos φ := by
      intro φ
      rw [Real.cos_add, Real.cos_pi, Real.sin_pi]
      ring
    have hsinrev : ∀ φ : ℝ, Real.sin (φ + Real.pi) = -Real.sin φ := by
      intro φ
      rw [Real.sin_add, Real.cos_pi, Real.sin_pi]
      ring
    have e1 : ∀ A B : ℝ, Real.cos (A + Real.pi - B) = -Real.cos (A - B) := by
      intro A B
      rw [show A + Real.pi - B = (A - B) + Real.pi by ring, hcosrev]
    have e2 : ∀ A B : ℝ, Real.sin (A + Real.pi - B) = -Real.sin (A - B) := by
      intro A B
      rw [show A + Real.pi - B = (A - B) + Real.pi by ring, hsinrev]
    have e3 : ∀ A B : ℝ, Real.cos (A + Real.pi + B) = -Real.cos (A + B) := by
      intro A B
      rw [show A + Real.pi + B = (A + B) + Real.pi by ring, hcosrev]
    have e4 : ∀ A B : ℝ, Real.sin (A + Real.pi + B) = -Real.sin (A + B) := by
      intro A B
      rw [show A + Real.pi + B = (A + B) + Real.pi by ring, hsinrev]
    rw [Light.drawArrow_ops]
    simp only [Light.arrowOps, hc, hs, hp, e1, e2, e3, e4]
    norm_num
    constructor <;> constructor <;> ring_nf
  · intro θ
    have hθ := Real.sin_sq_add_cos_sq θ
    ring_nf
    nlinarith [hθ]

theorem C7_arrow_geometry_witness :
    ((100 : ℝ) - 25 * Real.cos
        ((⟨Real.pi, Real.cos, Real.sin, fun _ _ => 0⟩ : JsMath ℝ).atan2
          (0 - 0) (100 - 0)) + 15 * Real.cos 0 -
      ((100 : ℝ) - 25 * Real.cos
        ((⟨Real.pi, Real.cos, Real.sin, fun _ _ => 0⟩ : JsMath ℝ).atan2
          (0 - 0) (100 - 0)))) ^ 2 +
    ((0 : ℝ) - 25 * Real.sin
        ((⟨Real.pi, Real.cos, Real.sin, fun _ _ => 0⟩ : JsMath ℝ).atan2
          (0 - 0) (100 - 0)) + 15 * Real.sin 0 -
      ((0 : ℝ) - 25 * Real.sin
        ((⟨Real.pi, Real.cos, Real.sin, fun _ _ => 0⟩ : JsMath ℝ).atan2
          (0 - 0) (100 - 0)))) ^ 2 = 15 ^ 2 :=
  (C7_arrow_geometry ⟨Real.pi, Real.cos, Real.sin, fun _ _ => 0⟩ rfl rfl rfl
    Ctx.initial 0 0 100 0).2 0
